import Mathlib

/-!
Verification of the fetch-and-normalize core of ETL_MERCADO_PUBLICO_FEDERICO.

The development shallowly embeds:
* the response parser `EvaluadorAPI._parsear_licitaciones`
  (src/licitaciones_refactorizado.py) and its two duplicates
  `parse_licitaciones` (src/run_fetch.py, src/licitaciones.py);
* the retry loop `ProcesadorLicitaciones.fetch_con_reintentos` and its helper
  `_calcular_tiempo_espera` (src/licitaciones_refactorizado.py), with HTTP
  attempts supplied by an environment function so that the loop's control
  flow, attempt count and sleep durations become explicit data.

JSON payloads are an inductive tree; Python `dict` access is association-list
lookup; Python floats (the backoff factor) are modelled as exact rationals,
and Python `int(...)` truncation toward zero is modelled on those rationals.
-/

/-- JSON values as handled by the scripts: `null`, booleans, numbers
(integral values suffice for every claim), strings, arrays, and objects
(ordered key-value lists, as Python dicts are). -/
inductive Json where
  | null
  | bool (b : Bool)
  | num (n : Int)
  | str (s : String)
  | arr (elems : List Json)
  | obj (fields : List (String × Json))

/-- Python `d[k]` / `k in d` on a dict modelled as the first binding of `k`
in the field list (`none` when the key is absent). -/
def Json.lookup (fields : List (String × Json)) (k : String) : Option Json :=
  match fields with
  | [] => none
  | (k2, v) :: rest => if k2 = k then some v else Json.lookup rest k

namespace EvaluadorAPI

/-- Embeds `EvaluadorAPI._parsear_licitaciones`
(src/licitaciones_refactorizado.py, lines 245-260).  The Python body is a
sequence of early returns; each guarded `return` becomes an `Option`-valued
step, and a guard that does not fire falls through to the next step, exactly
as control falls off an un-taken `if` in the source.  Note the source returns
`listado["Licitacion"]` with no `isinstance(..., list)` check. -/
def _parsear_licitaciones (payload : Json) : Json :=
  match payload with
  | .arr elems => .arr elems
  | .obj fields =>
    -- if "Listado" in payload: ... (two guarded returns, else fall through)
    let step1 : Option Json :=
      match Json.lookup fields "Listado" with
      | some (.obj listado) => Json.lookup listado "Licitacion"
      | some (.arr elems) => some (.arr elems)
      | _ => none
    -- if "Licitacion" in payload and isinstance(payload["Licitacion"], list)
    let step2 : Option Json :=
      match Json.lookup fields "Licitacion" with
      | some (.arr elems) => some (.arr elems)
      | _ => none
    -- if "Resultados" in payload and isinstance(payload["Resultados"], list)
    let step3 : Option Json :=
      match Json.lookup fields "Resultados" with
      | some (.arr elems) => some (.arr elems)
      | _ => none
    match step1 with
    | some r => r
    | none =>
      match step2 with
      | some r => r
      | none =>
        match step3 with
        | some r => r
        | none => .arr []
  | _ => .arr []

end EvaluadorAPI

namespace RunFetch

/-- Embeds the top-level `parse_licitaciones` (src/run_fetch.py, lines
16-30), translated the same way as its textually identical duplicate in
licitaciones_refactorizado.py. -/
def parse_licitaciones (payload : Json) : Json :=
  match payload with
  | .arr elems => .arr elems
  | .obj fields =>
    let step1 : Option Json :=
      match Json.lookup fields "Listado" with
      | some (.obj listado) => Json.lookup listado "Licitacion"
      | some (.arr elems) => some (.arr elems)
      | _ => none
    let step2 : Option Json :=
      match Json.lookup fields "Licitacion" with
      | some (.arr elems) => some (.arr elems)
      | _ => none
    let step3 : Option Json :=
      match Json.lookup fields "Resultados" with
      | some (.arr elems) => some (.arr elems)
      | _ => none
    match step1 with
    | some r => r
    | none =>
      match step2 with
      | some r => r
      | none =>
        match step3 with
        | some r => r
        | none => .arr []
  | _ => .arr []

end RunFetch

namespace LicitacionesPy

/-- Embeds the top-level `parse_licitaciones` (src/licitaciones.py, lines
21-35), translated the same way as the other two duplicates. -/
def parse_licitaciones (payload : Json) : Json :=
  match payload with
  | .arr elems => .arr elems
  | .obj fields =>
    let step1 : Option Json :=
      match Json.lookup fields "Listado" with
      | some (.obj listado) => Json.lookup listado "Licitacion"
      | some (.arr elems) => some (.arr elems)
      | _ => none
    let step2 : Option Json :=
      match Json.lookup fields "Licitacion" with
      | some (.arr elems) => some (.arr elems)
      | _ => none
    let step3 : Option Json :=
      match Json.lookup fields "Resultados" with
      | some (.arr elems) => some (.arr elems)
      | _ => none
    match step1 with
    | some r => r
    | none =>
      match step2 with
      | some r => r
      | none =>
        match step3 with
        | some r => r
        | none => .arr []
  | _ => .arr []

end LicitacionesPy

/-- Models Python `int(float)` as applied in `min(60, int(BACKOFF_FACTOR ** intento))`:
conversion of a (here exactly-represented, rational) float to an integer by
truncation toward zero. -/
def py_trunc (q : ℚ) : ℤ := if 0 ≤ q then ⌊q⌋ else ⌈q⌉

/-- Models Python `int(s)` on a string: optional surrounding whitespace, an
optional sign, then one or more decimal digits; any other shape raises
`ValueError`, modelled as `none`.  (Unicode digits and underscore separators,
which CPython also accepts, are not modelled; no claim depends on them.) -/
def py_int_of_str (s : String) : Option ℤ :=
  let ws : Char → Bool := fun c => c = ' ' ∨ c = '\t' ∨ c = '\n' ∨ c = '\r'
  let t := ((s.data.dropWhile ws).reverse.dropWhile ws).reverse
  let digits := match t with
    | '-' :: rest => rest
    | '+' :: rest => rest
    | _ => t
  if digits.length ≠ 0 ∧ digits.all fun c => c.isDigit then
    let mag : ℕ := digits.foldl (fun acc c => acc * 10 + (c.toNat - 48)) 0
    match t with
    | '-' :: _ => some (-(mag : ℤ))
    | _ => some (mag : ℤ)
  else none

/-- The expression `min(60, int(self.config.BACKOFF_FACTOR ** intento))`,
repeated verbatim in the 5xx branch, the network-error branch
(src/licitaciones_refactorizado.py, lines 349 and 359) and the fallback of
`_calcular_tiempo_espera` (line 371).  `intento` is the 1-based attempt
number. -/
def backoff_wait (b : ℚ) (intento : ℕ) : ℤ := min 60 (py_trunc (b ^ intento))

/-- The fields of `ConfiguracionAPI` (src/licitaciones_refactorizado.py,
lines 80-96) that the retry loop reads.  `BACKOFF_FACTOR` is a Python float,
modelled as an exact rational; the remaining fields (URLs, directories,
logging) identify network and filesystem collaborators outside this model. -/
structure ConfiguracionAPI where
  MAX_RETRIES : Int
  BACKOFF_FACTOR : ℚ
  RATE_LIMIT_HEADER : String

/-- The source's default configuration values: `MAX_RETRIES: int = 6`,
`BACKOFF_FACTOR: float = 2.0`, `RATE_LIMIT_HEADER: str = "Retry-After"`. -/
def config_defecto : ConfiguracionAPI :=
  { MAX_RETRIES := 6, BACKOFF_FACTOR := 2, RATE_LIMIT_HEADER := "Retry-After" }

/-- Python `response.headers.get(k)`: first binding of the key, `none` when
absent.  (Real HTTP header lookup is case-insensitive; the model keys headers
exactly as the environment supplies them, which no claim distinguishes.) -/
def header_get (headers : List (String × String)) (k : String) : Option String :=
  match headers with
  | [] => none
  | (k2, v) :: rest => if k2 = k then some v else header_get rest k

/-- One HTTP response as seen by the loop body: its status code, its headers,
and its already-decoded JSON body (the model hands `response.json()` the
parsed tree directly). -/
structure HttpResponse where
  status_code : Nat
  headers : List (String × String)
  body : Json

/-- What one call to `requests.get` yields: either a response, or a
`requests.RequestException` raised at the network level (connection failure,
timeout), carrying its message. -/
inductive AttemptResult where
  | response (resp : HttpResponse)
  | networkError (msg : String)

/-- The exception values the loop stores in `last_error` or raises:
`requests.HTTPError` from `raise_for_status` (carrying the status code),
the literal `Exception("HTTP 429 Rate limit")`, and a network-level
`requests.RequestException`. -/
inductive FetchError where
  | http_error (status : Nat)
  | rate_limit
  | network (msg : String)

/-- How one call to `fetch_con_reintentos` ends: `success` models
`return response.json()`; `raised` models the bare `raise` re-raising a
non-5xx `HTTPError` inside the loop; `raised_last` models `raise last_error`
after the loop, carrying the value of `last_error` at that point (`none`
when the loop body never ran, i.e. Python `raise None`). -/
inductive FetchOutcome where
  | success (body : Json)
  | raised (e : FetchError)
  | raised_last (last_error : Option FetchError)

/-- Observable behaviour of one `fetch_con_reintentos` call: how many HTTP
requests were issued, the argument of each `time.sleep` in order, and how the
call ended. -/
structure FetchTrace where
  attempts : ℕ
  sleeps : List ℤ
  outcome : FetchOutcome

/-- Embeds `ProcesadorLicitaciones._calcular_tiempo_espera`
(src/licitaciones_refactorizado.py, lines 364-371): if the `Retry-After`
value is truthy (present and nonempty) and `int(...)` succeeds, return that
integer — uncapped; otherwise fall back to
`min(60, int(BACKOFF_FACTOR ** intento))`. -/
def _calcular_tiempo_espera (cfg : ConfiguracionAPI) (retry_after : Option String)
    (intento : ℕ) : ℤ :=
  match retry_after with
  | some s =>
    if s.length ≠ 0 then
      match py_int_of_str s with
      | some n => n
      | none => backoff_wait cfg.BACKOFF_FACTOR intento
    else backoff_wait cfg.BACKOFF_FACTOR intento
  | none => backoff_wait cfg.BACKOFF_FACTOR intento

/-- The body of the `for intento in range(1, max_retries + 1)` loop of
`fetch_con_reintentos` (src/licitaciones_refactorizado.py, lines 325-360),
with the HTTP attempts supplied by `env` (attempt number ↦ what
`requests.get` yields).  `remaining` counts the loop iterations left,
`intento` is the current 1-based attempt number.  Branches, in source order:
status 429 → compute wait from the rate-limit header, sleep, record the rate
limit as `last_error`, `continue`; `raise_for_status` raises exactly on
status 400-599: a 5xx sleeps the capped backoff and continues, any other
raised status re-raises immediately; a network-level exception sleeps the
capped backoff and continues; otherwise `return response.json()`.  Falling
off the loop reaches `raise last_error`. -/
def fetch_loop (cfg : ConfiguracionAPI) (env : ℕ → AttemptResult)
    (intento : ℕ) (remaining : ℕ) (last_error : Option FetchError) : FetchTrace :=
  match remaining with
  | 0 => ⟨0, [], .raised_last last_error⟩
  | r + 1 =>
    match env intento with
    | .networkError msg =>
      let wait_time := backoff_wait cfg.BACKOFF_FACTOR intento
      let t := fetch_loop cfg env (intento + 1) r (some (.network msg))
      ⟨t.attempts + 1, wait_time :: t.sleeps, t.outcome⟩
    | .response resp =>
      if resp.status_code = 429 then
        let retry_after := header_get resp.headers cfg.RATE_LIMIT_HEADER
        let wait_time := _calcular_tiempo_espera cfg retry_after intento
        let t := fetch_loop cfg env (intento + 1) r (some .rate_limit)
        ⟨t.attempts + 1, wait_time :: t.sleeps, t.outcome⟩
      else if 400 ≤ resp.status_code ∧ resp.status_code < 600 then
        if 500 ≤ resp.status_code ∧ resp.status_code < 600 then
          let wait_time := backoff_wait cfg.BACKOFF_FACTOR intento
          let t := fetch_loop cfg env (intento + 1) r (some (.http_error resp.status_code))
          ⟨t.attempts + 1, wait_time :: t.sleeps, t.outcome⟩
        else
          ⟨1, [], .raised (.http_error resp.status_code)⟩
      else
        ⟨1, [], .success resp.body⟩

/-- The first statement of `fetch_con_reintentos`:
`max_retries = max_retries or self.config.MAX_RETRIES`.  Python `or` keeps
the left operand only when it is truthy, so both `None` and `0` fall back to
the configured value. -/
def max_retries_efectivo (cfg : ConfiguracionAPI) (max_retries : Option Int) : Int :=
  match max_retries with
  | none => cfg.MAX_RETRIES
  | some n => if n = 0 then cfg.MAX_RETRIES else n

/-- Embeds `ProcesadorLicitaciones.fetch_con_reintentos`
(src/licitaciones_refactorizado.py, lines 319-362): resolve the retry budget
via Python `or`, run the attempt loop starting at `intento = 1` with
`last_error = None`; `range(1, n + 1)` iterates `max 0 n` times. -/
def fetch_con_reintentos (cfg : ConfiguracionAPI) (env : ℕ → AttemptResult)
    (max_retries : Option Int) : FetchTrace :=
  fetch_loop cfg env 1 (max_retries_efectivo cfg max_retries).toNat none

/-- An attempt at which the 429 branch would find a truthy, parseable
`Retry-After` header — the only way a sleep can escape the 60-second cap. -/
def hint_parseable (cfg : ConfiguracionAPI) : AttemptResult → Bool
  | .response resp =>
    match header_get resp.headers cfg.RATE_LIMIT_HEADER with
    | some s => s.length ≠ 0 && (py_int_of_str s).isSome
    | none => false
  | .networkError _ => false

/-! Helper lemmas shared by the claim theorems. -/

/-- For the default backoff factor 2 the Python `int(...)` truncation is
exact: `int(2.0 ** i) = 2 ** i`. -/
theorem py_trunc_two_pow (k : ℕ) : py_trunc ((2 : ℚ) ^ k) = 2 ^ k := by
  have h : ((2 : ℚ) ^ k) = (((2 ^ k : ℤ) : ℚ)) := by push_cast; ring
  have h0 : (0 : ℚ) ≤ ((2 ^ k : ℤ) : ℚ) := by positivity
  rw [h]
  simp only [py_trunc]
  rw [if_pos h0, Int.floor_intCast]

/-- When the `Retry-After` value does not parse as an integer (which covers
the empty string as well), `_calcular_tiempo_espera` takes its capped
exponential fallback. -/
theorem calcular_fallback (cfg : ConfiguracionAPI) (s : String) (i : ℕ)
    (hs : py_int_of_str s = none) :
    _calcular_tiempo_espera cfg (some s) i = backoff_wait cfg.BACKOFF_FACTOR i := by
  unfold _calcular_tiempo_espera
  by_cases hlen : s.length ≠ 0
  · simp [hlen, hs]
  · simp [hlen]

/-- At an attempt whose response carries no truthy parseable rate-limit
hint, the 429-branch wait is at most 60 seconds. -/
theorem calcular_le_60 (cfg : ConfiguracionAPI) (resp : HttpResponse) (i : ℕ)
    (h : hint_parseable cfg (.response resp) = false) :
    _calcular_tiempo_espera cfg (header_get resp.headers cfg.RATE_LIMIT_HEADER) i ≤ 60 := by
  simp only [hint_parseable] at h
  cases hh : header_get resp.headers cfg.RATE_LIMIT_HEADER with
  | none => exact min_le_left _ _
  | some s =>
    rw [hh] at h
    have h' : (decide (s.length ≠ 0) && (py_int_of_str s).isSome) = false := h
    simp only [_calcular_tiempo_espera]
    by_cases hlen : s.length ≠ 0
    · rw [if_pos hlen]
      cases hp : py_int_of_str s with
      | none => exact min_le_left _ _
      | some n => simp [hlen, hp] at h'
    · rw [if_neg hlen]
      exact min_le_left _ _

/-- If no attempt of the environment offers a parseable rate-limit hint,
every sleep of the loop is at most 60 seconds and there is at most one sleep
per remaining iteration. -/
theorem fetch_loop_sleeps_bound (cfg : ConfiguracionAPI) (env : ℕ → AttemptResult)
    (hno : ∀ i, hint_parseable cfg (env i) = false) :
    ∀ (remaining intento : ℕ) (last_error : Option FetchError),
      (∀ w ∈ (fetch_loop cfg env intento remaining last_error).sleeps, w ≤ 60) ∧
      (fetch_loop cfg env intento remaining last_error).sleeps.length ≤ remaining := by
  intro remaining
  induction remaining with
  | zero => intro intento last; simp [fetch_loop]
  | succ r ih =>
    intro intento last
    cases henv : env intento with
    | networkError msg =>
      simp only [fetch_loop, henv]
      refine ⟨?_, ?_⟩
      · intro w hw
        rcases List.mem_cons.mp hw with h | h
        · subst h; exact min_le_left _ _
        · exact (ih (intento + 1) _).1 w h
      · simpa using Nat.succ_le_succ (ih (intento + 1) _).2
    | response resp =>
      by_cases h429 : resp.status_code = 429
      · simp only [fetch_loop, henv, h429, if_pos, if_true]
        have hcal : _calcular_tiempo_espera cfg
            (header_get resp.headers cfg.RATE_LIMIT_HEADER) intento ≤ 60 := by
          apply calcular_le_60
          rw [← henv]; exact hno intento
        refine ⟨?_, ?_⟩
        · intro w hw
          rcases List.mem_cons.mp hw with h | h
          · subst h; exact hcal
          · exact (ih (intento + 1) _).1 w h
        · simpa using Nat.succ_le_succ (ih (intento + 1) _).2
      · by_cases hcli : 400 ≤ resp.status_code ∧ resp.status_code < 600
        · by_cases hsrv : 500 ≤ resp.status_code ∧ resp.status_code < 600
          · simp only [fetch_loop, henv, if_neg h429, if_pos hcli, if_pos hsrv]
            refine ⟨?_, ?_⟩
            · intro w hw
              rcases List.mem_cons.mp hw with h | h
              · subst h; exact min_le_left _ _
              · exact (ih (intento + 1) _).1 w h
            · simpa using Nat.succ_le_succ (ih (intento + 1) _).2
          · simp only [fetch_loop, henv, if_neg h429, if_pos hcli, if_neg hsrv]
            exact ⟨by intro w hw; simp at hw, by simp⟩
        · simp only [fetch_loop, henv, if_neg h429, if_neg hcli]
          exact ⟨by intro w hw; simp at hw, by simp⟩

/-! The claims. -/

/-- Claim C1 (refuted by the code; evidence for the code bug): the spec's
invariant says `parse` always returns a list, yet on the payload
`{"Listado": {"Licitacion": 5}}` the source executes
`return listado["Licitacion"]` with no list check and hands back the number
`5`, contradicting the function's own `-> List[Dict[str, Any]]` annotation
(every other return branch does guard with `isinstance(..., list)`). -/
theorem claim_c1 :
    EvaluadorAPI._parsear_licitaciones
        (Json.obj [("Listado", Json.obj [("Licitacion", Json.num 5)])]) = Json.num 5 ∧
    ∀ elems : List Json, Json.num 5 ≠ Json.arr elems :=
  ⟨rfl, by simp⟩

/-- Claim C2 (counterexample): the claim says a mapping whose `"Listado"`
value is unrecognized parses to `[]` even when a `"Licitacion"` list key is
also present; the code instead falls through to the `"Licitacion"` branch and
returns that list, as evaluated here on
`{"Listado": 0, "Licitacion": [1]}`. -/
theorem claim_c2_counterexample :
    EvaluadorAPI._parsear_licitaciones
        (Json.obj [("Listado", Json.num 0), ("Licitacion", Json.arr [Json.num 1])])
      = Json.arr [Json.num 1] ∧
    Json.arr [Json.num 1] ≠ Json.arr ([] : List Json) :=
  ⟨rfl, by simp⟩

/-- Claim C2 (amended): for a mapping containing `"Listado"` with a value
that is neither a mapping containing `"Licitacion"` nor a list, `parse`
returns the empty list provided the mapping also has no `"Licitacion"` key
with a list value and no `"Resultados"` key with a list value — those two
branches are sequential fall-through checks, not else-branches of the
`"Listado"` check. -/
theorem claim_c2 (fields : List (String × Json)) (listado : Json)
    (hL : Json.lookup fields "Listado" = some listado)
    (h1 : ∀ l, listado = Json.obj l → Json.lookup l "Licitacion" = none)
    (h2 : ∀ e, listado ≠ Json.arr e)
    (h3 : ∀ e, Json.lookup fields "Licitacion" ≠ some (Json.arr e))
    (h4 : ∀ e, Json.lookup fields "Resultados" ≠ some (Json.arr e)) :
    EvaluadorAPI._parsear_licitaciones (Json.obj fields) = Json.arr [] := by
  rcases hLic : Json.lookup fields "Licitacion" with _ | v <;>
  rcases hRes : Json.lookup fields "Resultados" with _ | w <;>
  (try cases v) <;> (try cases w) <;> cases listado <;>
  first
    | exact absurd rfl (h2 _)
    | exact absurd hLic (h3 _)
    | exact absurd hRes (h4 _)
    | simp only [EvaluadorAPI._parsear_licitaciones, hL, hLic, hRes, h1 _ rfl]
    | simp only [EvaluadorAPI._parsear_licitaciones, hL, hLic, hRes]

/-- Claim C2 (witness): the amended theorem applied to the concrete payload
`{"Listado": 7}`. -/
theorem claim_c2_witness :
    Json.lookup [("Listado", Json.num 7)] "Listado" = some (Json.num 7) ∧
    EvaluadorAPI._parsear_licitaciones (Json.obj [("Listado", Json.num 7)]) = Json.arr [] :=
  ⟨rfl, claim_c2 [("Listado", Json.num 7)] (Json.num 7) rfl
      (fun _ h => Json.noConfusion h) (fun _ h => Json.noConfusion h)
      (fun _ h => Option.noConfusion h) (fun _ h => Option.noConfusion h)⟩

/-- Claim C3: with `max_retries = 3` and every attempt answering HTTP 503,
the loop issues exactly 3 HTTP attempts, sleeps 3 times (once after every
failed attempt, so in particular between consecutive attempts), and ends at
`raise last_error` with `last_error` the `HTTPError` of the last 503 —
the retries-exhausted failure carrying the last 503 as its cause. -/
theorem claim_c3 (cfg : ConfiguracionAPI) :
    (fetch_con_reintentos cfg (fun _ => .response ⟨503, [], .null⟩) (some 3)).attempts = 3 ∧
    (fetch_con_reintentos cfg (fun _ => .response ⟨503, [], .null⟩) (some 3)).sleeps.length = 3 ∧
    (fetch_con_reintentos cfg (fun _ => .response ⟨503, [], .null⟩) (some 3)).outcome
      = .raised_last (some (.http_error 503)) :=
  ⟨rfl, rfl, rfl⟩

/-- Claim C4: for any retry budget of at least 1, a first attempt answered
by a non-429 4xx status makes the call re-raise that `HTTPError` at once:
exactly one HTTP attempt, no sleep, no further attempt. -/
theorem claim_c4 (cfg : ConfiguracionAPI) (env : ℕ → AttemptResult) (n : Int) (status : Nat)
    (hn : 1 ≤ n) (h4 : 400 ≤ status) (h5 : status < 500) (h429 : status ≠ 429)
    (henv : env 1 = .response ⟨status, [], .null⟩) :
    fetch_con_reintentos cfg env (some n) = ⟨1, [], .raised (.http_error status)⟩ := by
  have h0 : n ≠ 0 := by omega
  obtain ⟨k, hk⟩ : ∃ k, n.toNat = k + 1 := ⟨n.toNat - 1, by omega⟩
  have h6 : status < 600 := by omega
  have h7 : ¬ (500 ≤ status) := by omega
  simp [fetch_con_reintentos, max_retries_efectivo, h0, hk, fetch_loop, henv, h429, h4, h5,
    h6, h7]

/-- Claim C4 (witness): the theorem applied to a 404 on the first attempt
with a budget of 1. -/
theorem claim_c4_witness :
    (1 : ℤ) ≤ 1 ∧ 400 ≤ 404 ∧ 404 < 500 ∧ 404 ≠ 429 ∧
    fetch_con_reintentos config_defecto (fun _ => .response ⟨404, [], .null⟩) (some 1)
      = ⟨1, [], .raised (.http_error 404)⟩ :=
  ⟨le_refl 1, by norm_num, by norm_num, by norm_num,
    claim_c4 config_defecto _ 1 404 (le_refl 1) (by norm_num) (by norm_num) (by norm_num) rfl⟩

/-- Claim C8: `parse` on `{"Listado": {"Licitacion": X}}` returns exactly
`X` for every value `X` (list or not), and on `{"Listado": X}` with `X` a
list returns exactly `X`. -/
theorem claim_c8 :
    (∀ x : Json, EvaluadorAPI._parsear_licitaciones
        (Json.obj [("Listado", Json.obj [("Licitacion", x)])]) = x) ∧
    (∀ elems : List Json, EvaluadorAPI._parsear_licitaciones
        (Json.obj [("Listado", Json.arr elems)]) = Json.arr elems) :=
  ⟨fun _ => rfl, fun _ => rfl⟩

/-- Claim C10: the three duplicated parsers — the method in
licitaciones_refactorizado.py and the top-level functions in run_fetch.py
and licitaciones.py — compute the same result on every JSON payload. -/
theorem claim_c10 :
    ∀ payload : Json,
      EvaluadorAPI._parsear_licitaciones payload = RunFetch.parse_licitaciones payload ∧
      RunFetch.parse_licitaciones payload = LicitacionesPy.parse_licitaciones payload :=
  fun _ => ⟨rfl, rfl⟩

/-- Claim C5 (counterexample): with backoff base 3/2 the wait actually slept
after a first-attempt 503 is `backoff_wait (3/2) 1 = min 60 (int(1.5)) = 1`,
which differs from the claimed exact real-valued `min(60, (3/2)^1) = 3/2`. -/
theorem claim_c5_counterexample :
    (fetch_con_reintentos ⟨6, 3/2, "Retry-After"⟩
        (fun _ => .response ⟨503, [], .null⟩) (some 1)).sleeps
      = [backoff_wait (3/2) 1] ∧
    ((backoff_wait (3/2) 1 : ℤ) : ℚ) ≠ min 60 ((3/2 : ℚ) ^ 1) :=
  ⟨rfl, by norm_num [backoff_wait, py_trunc]⟩

/-- Claim C5 (amended): the fallback wait used between retries is the same
expression in the 5xx branch, the network-error branch and the hint-less 429
branch alike, namely `min(60, int(b ** i))` — the real-valued power first
truncated to an integer by `int(...)`, then capped at 60 — rather than the
exact real-valued `min(60, b ** i)`.  The run below exercises all three
branches at attempts 1, 2 and 3. -/
theorem claim_c5 (b : ℚ) (s : String) (hs : py_int_of_str s = none) (body : Json) :
    (∀ i, backoff_wait b i = min 60 (py_trunc (b ^ i))) ∧
    (fetch_con_reintentos ⟨6, b, "Retry-After"⟩
        (fun i => if i = 1 then .response ⟨503, [], .null⟩
                  else if i = 2 then .networkError "connection reset"
                  else if i = 3 then .response ⟨429, [("Retry-After", s)], .null⟩
                  else .response ⟨200, [], body⟩) none).sleeps
      = [backoff_wait b 1, backoff_wait b 2, backoff_wait b 3] := by
  have h3 : _calcular_tiempo_espera ⟨6, b, "Retry-After"⟩ (some s) 3 = backoff_wait b 3 :=
    calcular_fallback _ _ _ hs
  refine ⟨fun i => rfl, ?_⟩
  simp only [fetch_con_reintentos, max_retries_efectivo]
  norm_num [fetch_loop, header_get, h3]

/-- Claim C5 (witness): the amended theorem at base 2 and a date-valued
`Retry-After` header. -/
theorem claim_c5_witness :
    py_int_of_str "Wed, 21 Oct 2015 07:28:00 GMT" = none ∧
    ((∀ i, backoff_wait 2 i = min 60 (py_trunc ((2 : ℚ) ^ i))) ∧
     (fetch_con_reintentos ⟨6, 2, "Retry-After"⟩
        (fun i => if i = 1 then .response ⟨503, [], .null⟩
                  else if i = 2 then .networkError "connection reset"
                  else if i = 3 then
                    .response ⟨429, [("Retry-After", "Wed, 21 Oct 2015 07:28:00 GMT")], .null⟩
                  else .response ⟨200, [], .null⟩) none).sleeps
      = [backoff_wait 2 1, backoff_wait 2 2, backoff_wait 2 3]) :=
  ⟨by decide, claim_c5 2 "Wed, 21 Oct 2015 07:28:00 GMT" (by decide) .null⟩

/-- Claim C6 (counterexample): a parseable `Retry-After: 3600` hint is
honored uncapped — the single wait before the retry is 3600 seconds, far
above the claimed 60-second bound. -/
theorem claim_c6_counterexample :
    (fetch_con_reintentos config_defecto
        (fun i => if i = 1 then .response ⟨429, [("Retry-After", "3600")], .null⟩
                  else .response ⟨200, [], .null⟩) none).sleeps = [3600] ∧
    ¬ ((3600 : ℤ) ≤ 60) := by
  constructor
  · simp only [fetch_con_reintentos, max_retries_efectivo, config_defecto]
    norm_num [fetch_loop, header_get, _calcular_tiempo_espera]
    · rfl
  · norm_num

/-- Claim C6 (amended): the 60-second cap holds only for waits not taken
from a parseable rate-limit hint: if no attempt carries a truthy parseable
`Retry-After` value, every sleep is at most 60 seconds and the total sleep
of one call is at most 60 times the effective retry budget.  (A parseable
integer hint, by contrast, is used uncapped — see the counterexample.) -/
theorem claim_c6 (cfg : ConfiguracionAPI) (env : ℕ → AttemptResult) (mr : Option Int)
    (hno : ∀ i, hint_parseable cfg (env i) = false) :
    (∀ w ∈ (fetch_con_reintentos cfg env mr).sleeps, w ≤ 60) ∧
    (fetch_con_reintentos cfg env mr).sleeps.sum
      ≤ 60 * ((max_retries_efectivo cfg mr).toNat : ℤ) := by
  have h := fetch_loop_sleeps_bound cfg env hno (max_retries_efectivo cfg mr).toNat 1 none
  refine ⟨h.1, ?_⟩
  have hsum :
      (fetch_con_reintentos cfg env mr).sleeps.sum
        ≤ ((fetch_con_reintentos cfg env mr).sleeps.length : ℤ) * 60 := by
    simpa [nsmul_eq_mul] using
      List.sum_le_card_nsmul (fetch_con_reintentos cfg env mr).sleeps 60 h.1
  have hlen : (fetch_con_reintentos cfg env mr).sleeps.length
      ≤ (max_retries_efectivo cfg mr).toNat := h.2
  omega

/-- Claim C6 (witness): the amended theorem on an all-503 run with the
default configuration. -/
theorem claim_c6_witness :
    (∀ i, hint_parseable config_defecto
        ((fun _ : ℕ => AttemptResult.response ⟨503, [], .null⟩) i) = false) ∧
    ((∀ w ∈ (fetch_con_reintentos config_defecto
        (fun _ => .response ⟨503, [], .null⟩) none).sleeps, w ≤ 60) ∧
     (fetch_con_reintentos config_defecto
        (fun _ => .response ⟨503, [], .null⟩) none).sleeps.sum
       ≤ 60 * ((max_retries_efectivo config_defecto none).toNat : ℤ)) :=
  ⟨fun _ => rfl, claim_c6 config_defecto _ none (fun _ => rfl)⟩

/-- Claim C7: a 429 with a present but unparseable `Retry-After` value makes
the call wait the same capped exponential fallback as the other transient
branches — with the default base 2 this is exactly `min(60, 2 ** i)`, which
is positive, never 0 and never a failure — and then retry: the concrete run
sees the 429 on attempt 1, sleeps the fallback, retries and succeeds. -/
theorem claim_c7 (s : String) (hs : py_int_of_str s = none) :
    (∀ i : ℕ, _calcular_tiempo_espera config_defecto (some s) i = min 60 (2 ^ i) ∧
       0 < _calcular_tiempo_espera config_defecto (some s) i) ∧
    ∀ body : Json,
      fetch_con_reintentos config_defecto
          (fun i => if i = 1 then .response ⟨429, [("Retry-After", s)], .null⟩
                    else .response ⟨200, [], body⟩) none
        = ⟨2, [min 60 (2 ^ 1)], .success body⟩ := by
  have hcal : ∀ i : ℕ, _calcular_tiempo_espera config_defecto (some s) i = min 60 (2 ^ i) := by
    intro i
    rw [calcular_fallback _ _ _ hs]
    show backoff_wait (2 : ℚ) i = _
    rw [show backoff_wait (2 : ℚ) i = min 60 (py_trunc ((2 : ℚ) ^ i)) from rfl,
      py_trunc_two_pow]
  constructor
  · intro i
    refine ⟨hcal i, ?_⟩
    rw [hcal i]
    have : (0 : ℤ) < 2 ^ i := by positivity
    omega
  · intro body
    have h1 : _calcular_tiempo_espera ⟨6, 2, "Retry-After"⟩ (some s) 1 = 2 := by
      rw [calcular_fallback _ _ _ hs]
      norm_num [backoff_wait, py_trunc]
    simp only [fetch_con_reintentos, max_retries_efectivo, config_defecto]
    norm_num [fetch_loop, header_get, h1]

/-- Claim C7 (witness): the theorem at a date-valued `Retry-After` header. -/
theorem claim_c7_witness :
    py_int_of_str "Sun, 12 Oct 2026 00:00:00 GMT" = none ∧
    ((∀ i : ℕ, _calcular_tiempo_espera config_defecto
          (some "Sun, 12 Oct 2026 00:00:00 GMT") i = min 60 (2 ^ i) ∧
        0 < _calcular_tiempo_espera config_defecto
          (some "Sun, 12 Oct 2026 00:00:00 GMT") i) ∧
     ∀ body : Json,
       fetch_con_reintentos config_defecto
           (fun i => if i = 1 then
               .response ⟨429, [("Retry-After", "Sun, 12 Oct 2026 00:00:00 GMT")], .null⟩
             else .response ⟨200, [], body⟩) none
         = ⟨2, [min 60 (2 ^ 1)], .success body⟩) :=
  ⟨by decide, claim_c7 "Sun, 12 Oct 2026 00:00:00 GMT" (by decide)⟩

/-- Claim C9 (counterexample): calling with `max_retries = 0` does not skip
the loop — Python `0 or self.config.MAX_RETRIES` discards the 0, so with the
default configuration the call performs 6 HTTP attempts, not 0. -/
theorem claim_c9_counterexample :
    (fetch_con_reintentos config_defecto
        (fun _ => .response ⟨503, [], .null⟩) (some 0)).attempts = 6 ∧
    (6 : ℕ) ≠ 0 :=
  ⟨rfl, by decide⟩

/-- Claim C9 (amended): only a negative `max_retries` skips the loop — the
call then issues no HTTP attempt, sleeps never, and reaches
`raise last_error` with the never-assigned `None` sentinel (a failure
carrying no cause); `max_retries = 0` instead falls back to the configured
`MAX_RETRIES` via Python `or` and the fetch runs normally. -/
theorem claim_c9 (cfg : ConfiguracionAPI) (env : ℕ → AttemptResult) :
    (∀ n : Int, n < 0 →
      fetch_con_reintentos cfg env (some n) = ⟨0, [], .raised_last none⟩) ∧
    fetch_con_reintentos cfg env (some 0) = fetch_con_reintentos cfg env none := by
  refine ⟨?_, rfl⟩
  intro n hn
  have h0 : n ≠ 0 := by omega
  have ht : n.toNat = 0 := by omega
  simp [fetch_con_reintentos, max_retries_efectivo, h0, ht, fetch_loop]

/-- Claim C9 (witness): the amended theorem at `max_retries = -1` and
`max_retries = 0` with the default configuration. -/
theorem claim_c9_witness :
    (-1 : ℤ) < 0 ∧
    fetch_con_reintentos config_defecto
        (fun _ => .response ⟨503, [], .null⟩) (some (-1))
      = ⟨0, [], .raised_last none⟩ ∧
    fetch_con_reintentos config_defecto
        (fun _ => .response ⟨503, [], .null⟩) (some 0)
      = fetch_con_reintentos config_defecto
          (fun _ => .response ⟨503, [], .null⟩) none :=
  ⟨by norm_num, (claim_c9 config_defecto _).1 (-1) (by norm_num),
    (claim_c9 config_defecto _).2⟩
